import Mathlib

/-!
Shallow embedding of `src/asbestos_monitoring_system.py`
(Akshama2003/Real-Time-Asbestos-Monitoring-System).

Concentrations, clock values and wall-clock timestamps are modelled as
rationals (`ℚ`): the Python floats only ever flow through comparisons with
the literals `0.01` and `0.1` and additions/subtractions, whose branch
structure the rational embedding reproduces exactly.  Risk levels are the
literal strings the source returns.  The stateful sampling loop of
`real_time_monitoring` is embedded as a function over an explicit script of
tick inputs (clock value at the loop test, sampled concentration, wall
timestamp, and whether the tick completes, its DB write raises, or an
external interrupt arrives), returning the final buffer state, the exit
path, the list of exporter invocations and the number of `close()` calls.
-/

/-- `AsbestosMonitoringSystem.calculate_risk_level` (lines 48-54):
`< 0.01 → "Low"`, `elif < 0.1 → "Medium"`, `else "High"`. -/
def calculate_risk_level (concentration : ℚ) : String :=
  if concentration < 1/100 then "Low"
  else if concentration < 1/10 then "Medium"
  else "High"

/-- One row of the `asbestos_readings` table (and likewise one CSV row):
`(timestamp, location, concentration, risk_level)` (lines 37-45, 118-127). -/
structure DBRow where
  timestamp : ℚ
  location : String
  concentration : ℚ
  risk_level : String
deriving DecidableEq, Repr

/-- The mutable buffer state of the system object: `self.readings`,
`self.timestamps` (lines 12-13) and the rows durably written to the
database during the session. -/
structure MonState where
  readings : List ℚ
  timestamps : List ℚ
  dbRows : List DBRow
deriving DecidableEq, Repr

/-- `__init__` seeds both lists with a sentinel zero entry (lines 12-13);
no database row is written at initialisation. -/
def initState : MonState :=
  { readings := [0], timestamps := [0], dbRows := [] }

/-- What happens on one pass of the sampling loop: the body completes and
the DB write succeeds (`ok`); the DB write (`cursor.execute`/`commit`,
lines 117-128) raises after the two list appends (`writeFail`); or a
`KeyboardInterrupt` arrives at the tick boundary before the body runs
(`interrupt`). -/
inductive TickOutcome
  | ok
  | writeFail
  | interrupt
deriving DecidableEq, Repr

/-- Inputs the environment supplies to one iteration of the `while` loop:
the value of `time.time()` at the loop test, the sampled concentration
(`np.random.uniform(0, 0.2)` in the source, arbitrary here so the model
covers the sensor contract), the wall timestamp `datetime.datetime.now()`,
and the outcome. -/
structure Tick where
  nowClock : ℚ
  concentration : ℚ
  wallTime : ℚ
  outcome : TickOutcome
deriving DecidableEq, Repr

/-- How the `try` block of `real_time_monitoring` was left: the `while`
condition turned false (`timeout`), `KeyboardInterrupt` (`interrupted`),
or a generic `Exception` from the loop body (`fault`). -/
inductive ExitPath
  | timeout
  | interrupted
  | fault
deriving DecidableEq, Repr

/-- The full body of one loop iteration when the DB write succeeds
(lines 107-128): classify, append the concentration to `readings`, the
timestamp to `timestamps`, and insert a row into `asbestos_readings`.
When the write raises (`writeOk = false`) the two appends have already
happened but no row is recorded. -/
def tickBody (st : MonState) (location : String) (t : Tick) (writeOk : Bool) :
    MonState :=
  { readings := st.readings ++ [t.concentration]
    timestamps := st.timestamps ++ [t.wallTime]
    dbRows :=
      if writeOk then
        st.dbRows ++
          [⟨t.wallTime, location, t.concentration,
            calculate_risk_level t.concentration⟩]
      else st.dbRows }

/-- The `while time.time() < end_time` loop (lines 106-141), driven by a
finite script of tick inputs.  A `writeFail` tick performs its appends and
then the raised exception leaves the loop (caught by `except Exception`,
line 144); an `interrupt` leaves it at once (`except KeyboardInterrupt`,
line 142); exhausting the script stands for the clock reaching the planned
end. -/
def runLoop (endTime : ℚ) (location : String) :
    List Tick → MonState → MonState × ExitPath
  | [], st => (st, ExitPath.timeout)
  | t :: rest, st =>
    if t.nowClock < endTime then
      match t.outcome with
      | TickOutcome.interrupt => (st, ExitPath.interrupted)
      | TickOutcome.ok => runLoop endTime location rest (tickBody st location t true)
      | TickOutcome.writeFail => (tickBody st location t false, ExitPath.fault)
    else (st, ExitPath.timeout)

/-- The ticks whose loop body actually runs: the longest prefix of the
script of in-time `ok` ticks, plus the `writeFail` tick that ends the loop
when one is reached in time. -/
def executedTicks (endTime : ℚ) : List Tick → List Tick
  | [] => []
  | t :: rest =>
    if t.nowClock < endTime then
      match t.outcome with
      | TickOutcome.interrupt => []
      | TickOutcome.ok => t :: executedTicks endTime rest
      | TickOutcome.writeFail => [t]
    else []

/-- The exit path the loop takes on a given script. -/
def exitOf (endTime : ℚ) : List Tick → ExitPath
  | [] => ExitPath.timeout
  | t :: rest =>
    if t.nowClock < endTime then
      match t.outcome with
      | TickOutcome.interrupt => ExitPath.interrupted
      | TickOutcome.ok => exitOf endTime rest
      | TickOutcome.writeFail => ExitPath.fault
    else ExitPath.timeout

/-- Whether a tick's DB write succeeds (only `ok` ticks insert a row). -/
def writesRow (t : Tick) : Bool :=
  t.outcome == TickOutcome.ok

/-- The database row a tick inserts. -/
def rowOf (location : String) (t : Tick) : DBRow :=
  ⟨t.wallTime, location, t.concentration, calculate_risk_level t.concentration⟩

/-- Cumulative effect of a list of executed ticks on the buffer state. -/
def applyTicks (st : MonState) (location : String) (ts : List Tick) : MonState :=
  { readings := st.readings ++ ts.map Tick.concentration
    timestamps := st.timestamps ++ ts.map Tick.wallTime
    dbRows := st.dbRows ++ (ts.filter writesRow).map (rowOf location) }

theorem applyTicks_nil (st : MonState) (location : String) :
    applyTicks st location [] = st := by
  simp [applyTicks]

theorem applyTicks_cons (st : MonState) (location : String) (t : Tick)
    (ts : List Tick) :
    applyTicks st location (t :: ts) =
      applyTicks (tickBody st location t (writesRow t)) location ts := by
  simp only [applyTicks, tickBody, List.map_cons, List.filter_cons]
  cases h : writesRow t <;>
    simp [h, rowOf, List.append_assoc]

/-- Characterisation of the loop: its final state applies exactly the
executed ticks, and its exit path is `exitOf`. -/
theorem runLoop_eq (endTime : ℚ) (location : String) (script : List Tick)
    (st : MonState) :
    runLoop endTime location script st =
      (applyTicks st location (executedTicks endTime script),
       exitOf endTime script) := by
  induction script generalizing st with
  | nil => simp [runLoop, executedTicks, exitOf, applyTicks_nil]
  | cons t rest ih =>
    simp only [runLoop, executedTicks, exitOf]
    by_cases h : t.nowClock < endTime
    · simp only [if_pos h]
      cases ho : t.outcome
      · rw [ih, applyTicks_cons]
        simp [writesRow, ho]
      · rw [applyTicks_cons]
        simp only [writesRow, ho, applyTicks_nil]
        rfl
      · simp [applyTicks_nil]
    · simp [if_neg h, applyTicks_nil]

/-- The executed ticks always form a prefix of the script. -/
theorem executedTicks_eq_take (endTime : ℚ) (script : List Tick) :
    ∃ n, executedTicks endTime script = script.take n := by
  induction script with
  | nil => exact ⟨0, rfl⟩
  | cons t rest ih =>
    obtain ⟨n, hn⟩ := ih
    by_cases h : t.nowClock < endTime
    · cases ho : t.outcome
      · exact ⟨n + 1, by simp [executedTicks, h, ho, hn]⟩
      · exact ⟨1, by simp [executedTicks, h, ho]⟩
      · exact ⟨0, by simp [executedTicks, h, ho]⟩
    · exact ⟨0, by simp [executedTicks, h]⟩

/-- A wall-clock instant as `strftime("%Y%m%d_%H%M%S")` sees it
(line 80). -/
structure DateTime where
  year : Nat
  month : Nat
  day : Nat
  hour : Nat
  minute : Nat
  second : Nat
deriving DecidableEq, Repr

/-- Field ranges of a real calendar instant (all sub-year fields fit in
two digits, the year in four). -/
def validDT (d : DateTime) : Prop :=
  d.year < 10000 ∧ d.month < 100 ∧ d.day < 100 ∧
    d.hour < 100 ∧ d.minute < 100 ∧ d.second < 100

instance (d : DateTime) : Decidable (validDT d) := by
  unfold validDT; infer_instance

/-- Chronological key of an instant: fields weighted most significant
first, the order `%Y%m%d_%H%M%S` is meant to expose. -/
def dtKey (d : DateTime) : Nat :=
  ((((d.year * 100 + d.month) * 100 + d.day) * 100 + d.hour) * 100 +
      d.minute) * 100 + d.second

/-- Two-digit zero-padded decimal field, as `%m`, `%d`, `%H`, `%M`, `%S`
render it. -/
def pad2 (n : Nat) : String :=
  ⟨[Nat.digitChar (n / 10 % 10), Nat.digitChar (n % 10)]⟩

/-- Four-digit zero-padded decimal field, as `%Y` renders it for real
years. -/
def pad4 (n : Nat) : String :=
  ⟨[Nat.digitChar (n / 1000 % 10), Nat.digitChar (n / 100 % 10),
    Nat.digitChar (n / 10 % 10), Nat.digitChar (n % 10)]⟩

/-- `datetime.datetime.now().strftime("%Y%m%d_%H%M%S")` (line 80). -/
def strftimeYmdHMS (d : DateTime) : String :=
  pad4 d.year ++ pad2 d.month ++ pad2 d.day ++ "_" ++ pad2 d.hour ++
    pad2 d.minute ++ pad2 d.second

/-- The CSV artifact `export_to_csv` produces: header, rows, filename. -/
structure CsvFile where
  header : List String
  rows : List DBRow
  filename : String
deriving DecidableEq, Repr

/-- `AsbestosMonitoringSystem.export_to_csv` (lines 73-82): builds a
DataFrame from `timestamps[1:]` and `readings[1:]` (skipping the sentinel
seed pair), a constant `Location` column, and `Risk_Level` recomputed by
`calculate_risk_level`, then writes it without the index to
`asbestos_readings_<%Y%m%d_%H%M%S>.csv`. -/
def export_to_csv (st : MonState) (location : String) (now : DateTime) :
    CsvFile :=
  { header := ["Timestamp", "Location", "Concentration", "Risk_Level"]
    rows :=
      List.zipWith
        (fun t c => ⟨t, location, c, calculate_risk_level c⟩)
        (st.timestamps.drop 1) (st.readings.drop 1)
    filename := "asbestos_readings_" ++ strftimeYmdHMS now ++ ".csv" }

/-- Observable outcome of one call to `real_time_monitoring`: the final
buffer state, how the loop exited, the exporter invocations (each with the
file produced), the number of `close()` calls on the DB connection, and
the planned end of the session (`end_time`, line 89). -/
structure SessionResult where
  final : MonState
  exitPath : ExitPath
  exports : List CsvFile
  closeCount : Nat
  plannedEnd : ℚ
deriving DecidableEq, Repr

/-- `AsbestosMonitoringSystem.real_time_monitoring` (lines 84-154):
computes `end_time = start + duration_minutes * 60`, runs the sampling
loop, then in the `finally` block exports once if `len(readings) > 1` and
closes the DB connection exactly once.  `exportNow` is the wall clock at
the moment the CSV filename is formed. -/
def real_time_monitoring (location : String) (durationMinutes : Int)
    (startClock : ℚ) (script : List Tick) (exportNow : DateTime) :
    SessionResult :=
  let endTime : ℚ := startClock + (durationMinutes : ℚ) * 60
  let out := runLoop endTime location script initState
  { final := out.1
    exitPath := out.2
    exports :=
      if out.1.readings.length > 1 then [export_to_csv out.1 location exportNow]
      else []
    closeCount := 1
    plannedEnd := endTime }

/-- Accumulate the decimal value of a run of characters; `none` as soon as
a non-digit appears (Python `int` raising `ValueError`). -/
def digitsAux : List Char → Nat → Option Nat
  | [], acc => some acc
  | c :: rest, acc =>
    if c.isDigit then digitsAux rest (acc * 10 + (c.toNat - '0'.toNat))
    else none

/-- Python's `int(s)` on the strings relevant here: an optional leading
minus sign followed by at least one decimal digit parses (so negative and
zero literals are accepted); anything else raises `ValueError`, modelled
as `none`.  (Python additionally strips whitespace and allows `+` and
underscores; none of those refine the claims under scrutiny.) -/
def pyInt (s : String) : Option Int :=
  match s.data with
  | [] => none
  | '-' :: rest =>
    match rest with
    | [] => none
    | _ => (digitsAux rest 0).map (fun n => -(n : Int))
  | l => (digitsAux l 0).map (fun n => (n : Int))

/-- The duration parsing of `main` (lines 163-168):
`int(input(...) or "60")` with `ValueError` defaulting to 60.  An empty
line is falsy, so `or "60"` substitutes the default; non-integer text makes
`int` raise; any integer literal, including non-positive ones, parses. -/
def parseDurationInput (s : String) : Int :=
  if s = "" then 60
  else
    match pyInt s with
    | some n => n
    | none => 60

/-- `main` (lines 156-171): reads location and duration, then starts the
session with the parsed duration unconditionally. -/
def mainRun (locationInput durationInput : String) (startClock : ℚ)
    (script : List Tick) (exportNow : DateTime) : SessionResult :=
  real_time_monitoring locationInput (parseDurationInput durationInput)
    startClock script exportNow

/-- View-local display state: axis limits and the plotted line's data
(`self.ax`, `self.line`). -/
structure PlotState where
  xlimLo : ℚ
  xlimHi : ℚ
  ylimLo : ℚ
  ylimHi : ℚ
  lineX : List ℚ
  lineY : List ℚ
deriving DecidableEq, Repr

/-- The plot state `__init__` leaves behind (lines 18, 32-33). -/
def initPlotState : PlotState :=
  { xlimLo := 0, xlimHi := 60, ylimLo := 0, ylimHi := 3/20,
    lineX := [0], lineY := [0] }

/-- The whole mutable state `update_plot` can see: the buffer plus the
display state. -/
structure SystemState where
  mon : MonState
  plot : PlotState
deriving DecidableEq, Repr

/-- `AsbestosMonitoringSystem.update_plot` (lines 56-71): when more than
one timestamp exists, slide the x-window to the last 60 seconds, set the
line data to the non-sentinel readings against seconds-from-start, and
widen the y-axis to `1.1 ×` the maximum reading when that maximum exceeds
the current upper bound.  Timestamps are seconds, so
`(a - b).total_seconds()` is plain subtraction.  `max(self.readings)` is
modelled by `List.max?` with default 0 (the Python call only ever runs on
a nonempty list). -/
def update_plot (s : SystemState) : SystemState :=
  if 1 < s.mon.timestamps.length then
    let t1 := s.mon.timestamps.getD 1 0
    let tLast := (s.mon.timestamps.getLast?).getD 0
    let currentTime := tLast - t1
    let currentMax := (s.mon.readings.max?).getD 0
    { s with
      plot :=
        { xlimLo := max 0 (currentTime - 60)
          xlimHi := currentTime + 5
          ylimLo := if currentMax > s.plot.ylimHi then 0 else s.plot.ylimLo
          ylimHi :=
            if currentMax > s.plot.ylimHi then currentMax * (11/10)
            else s.plot.ylimHi
          lineX := (s.mon.timestamps.drop 1).map (fun t => t - t1)
          lineY := s.mon.readings.drop 1 } }
  else s

/-- Abstract `sequence_index` of the spec's Reading records: the position
of each reading in the append-only buffer. -/
def seqIndices (st : MonState) : List Nat :=
  List.range st.readings.length

theorem risk_low_iff (c : ℚ) : calculate_risk_level c = "Low" ↔ c < 1/100 := by
  unfold calculate_risk_level
  split_ifs with h1 h2
  · exact iff_of_true rfl h1
  · exact iff_of_false (by decide) h1
  · exact iff_of_false (by decide) h1

theorem risk_medium_iff (c : ℚ) :
    calculate_risk_level c = "Medium" ↔ 1/100 ≤ c ∧ c < 1/10 := by
  unfold calculate_risk_level
  split_ifs with h1 h2
  · exact iff_of_false (by decide) (fun hx => absurd h1 (not_lt.mpr hx.1))
  · exact iff_of_true rfl ⟨not_lt.mp h1, h2⟩
  · exact iff_of_false (by decide) (fun hx => h2 hx.2)

theorem risk_high_iff (c : ℚ) : calculate_risk_level c = "High" ↔ 1/10 ≤ c := by
  unfold calculate_risk_level
  split_ifs with h1 h2
  · exact iff_of_false (by decide) (fun hx => by linarith)
  · exact iff_of_false (by decide) (fun hx => absurd h2 (not_lt.mpr hx))
  · exact iff_of_true rfl (not_lt.mp h2)

/-- C1: for every concentration `c ≥ 0`, `calculate_risk_level c` is
`"Low"` iff `c < 0.01`, `"Medium"` iff `0.01 ≤ c < 0.1`, `"High"` iff
`c ≥ 0.1`; the boundary `0.01` maps to `"Medium"` and the boundary `0.1`
to `"High"`.  The embedding `calculate_risk_level` is a total pure Lean
function, matching the contract that `classify` is total and
side-effect-free. -/
theorem risk_level_thresholds (c : ℚ) (hc : 0 ≤ c) :
    (calculate_risk_level c = "Low" ↔ c < 1/100) ∧
    (calculate_risk_level c = "Medium" ↔ 1/100 ≤ c ∧ c < 1/10) ∧
    (calculate_risk_level c = "High" ↔ 1/10 ≤ c) ∧
    calculate_risk_level (1/100) = "Medium" ∧
    calculate_risk_level (1/10) = "High" :=
  ⟨risk_low_iff c, risk_medium_iff c, risk_high_iff c,
    by norm_num [calculate_risk_level],
    by norm_num [calculate_risk_level]⟩

/-- Witness for C1 at the concrete concentration `0.05`. -/
theorem risk_level_thresholds_witness :
    (0:ℚ) ≤ 1/20 ∧
    ((calculate_risk_level (1/20) = "Low" ↔ (1/20 : ℚ) < 1/100) ∧
     (calculate_risk_level (1/20) = "Medium" ↔
        (1/100 : ℚ) ≤ 1/20 ∧ (1/20 : ℚ) < 1/10) ∧
     (calculate_risk_level (1/20) = "High" ↔ (1/10 : ℚ) ≤ 1/20) ∧
     calculate_risk_level (1/100) = "Medium" ∧
     calculate_risk_level (1/10) = "High") :=
  ⟨by norm_num, risk_level_thresholds (1/20) (by norm_num)⟩

/-- C10: `calculate_risk_level` is total over every rational input and
always returns one of the three strings; every negative concentration is
mapped to `"Low"` (there is no input that raises). -/
theorem risk_level_total (c : ℚ) :
    (calculate_risk_level c = "Low" ∨ calculate_risk_level c = "Medium" ∨
      calculate_risk_level c = "High") ∧
    (c < 0 → calculate_risk_level c = "Low") := by
  constructor
  · unfold calculate_risk_level
    split_ifs <;> simp
  · intro h
    exact (risk_low_iff c).mpr (lt_trans h (by norm_num))

/-- Witness for C10: the negative input `-1` is mapped to `"Low"`. -/
theorem risk_level_total_witness : calculate_risk_level (-1) = "Low" :=
  (risk_level_total (-1)).2 (by norm_num)

/-- C8: the live-view render step mutates only display state: for every
system state, `update_plot` leaves the reading buffer and the timestamp
list (indeed the whole buffer state, database rows included) unchanged. -/
theorem update_plot_preserves_buffer (s : SystemState) :
    (update_plot s).mon.readings = s.mon.readings ∧
    (update_plot s).mon.timestamps = s.mon.timestamps := by
  unfold update_plot
  split <;> exact ⟨rfl, rfl⟩

/-- C2: for every session (any script of tick inputs, hence any of the
three exit paths: timeout, interruption, or a fault in the loop body) that
ends with at least one non-sentinel reading in the buffer, the exporter is
invoked exactly once and the store is closed exactly once. -/
theorem session_flush_once (location : String) (durationMinutes : Int)
    (startClock : ℚ) (script : List Tick) (exportNow : DateTime)
    (h : 1 < (real_time_monitoring location durationMinutes startClock script
        exportNow).final.readings.length) :
    (real_time_monitoring location durationMinutes startClock script
        exportNow).exports.length = 1 ∧
    (real_time_monitoring location durationMinutes startClock script
        exportNow).closeCount = 1 := by
  simp only [real_time_monitoring, gt_iff_lt] at h ⊢
  rw [if_pos h]
  exact ⟨rfl, trivial⟩

/-- Witness for C2: a one-tick session (ending by interrupt-free timeout)
with one recorded reading exports once and closes once. -/
theorem session_flush_once_witness :
    1 < (real_time_monitoring "Site" 1 0 [⟨0, 1/20, 1, TickOutcome.ok⟩]
        ⟨2025, 1, 2, 3, 4, 5⟩).final.readings.length ∧
    ((real_time_monitoring "Site" 1 0 [⟨0, 1/20, 1, TickOutcome.ok⟩]
        ⟨2025, 1, 2, 3, 4, 5⟩).exports.length = 1 ∧
     (real_time_monitoring "Site" 1 0 [⟨0, 1/20, 1, TickOutcome.ok⟩]
        ⟨2025, 1, 2, 3, 4, 5⟩).closeCount = 1) :=
  ⟨by norm_num [real_time_monitoring, runLoop, tickBody, initState],
   session_flush_once _ _ _ _ _
     (by norm_num [real_time_monitoring, runLoop, tickBody, initState])⟩

theorem zipRows_map_concentration (location : String) (ts cs : List ℚ)
    (h : ts.length = cs.length) :
    (List.zipWith
        (fun t c => (⟨t, location, c, calculate_risk_level c⟩ : DBRow))
        ts cs).map DBRow.concentration = cs := by
  induction ts generalizing cs with
  | nil =>
    cases cs with
    | nil => rfl
    | cons c cs => simp at h
  | cons t ts ih =>
    cases cs with
    | nil => simp at h
    | cons c cs =>
      have ht := ih cs (by simpa using h)
      simp [ht]

theorem zipRows_map_timestamp (location : String) (ts cs : List ℚ)
    (h : ts.length = cs.length) :
    (List.zipWith
        (fun t c => (⟨t, location, c, calculate_risk_level c⟩ : DBRow))
        ts cs).map DBRow.timestamp = ts := by
  induction ts generalizing cs with
  | nil =>
    cases cs with
    | nil => rfl
    | cons c cs => simp at h
  | cons t ts ih =>
    cases cs with
    | nil => simp at h
    | cons c cs =>
      have ht := ih cs (by simpa using h)
      simp [ht]

/-- C9: the readings list and the timestamps list have equal length after
initialisation and after any run of the sampling loop from any state in
which they are equal (each tick appends exactly one element to each); the
export step pairs them, yielding exactly one row per non-sentinel
reading. -/
theorem readings_timestamps_length_eq (endTime : ℚ) (location : String)
    (script : List Tick) (st : MonState) (now : DateTime)
    (h : st.readings.length = st.timestamps.length) :
    initState.readings.length = initState.timestamps.length ∧
    (runLoop endTime location script st).1.readings.length =
      (runLoop endTime location script st).1.timestamps.length ∧
    (export_to_csv (runLoop endTime location script st).1 location
        now).rows.length =
      (runLoop endTime location script st).1.readings.length - 1 := by
  rw [runLoop_eq]
  refine ⟨rfl, ?_, ?_⟩
  · simp [applyTicks, h]
  · simp only [export_to_csv, applyTicks, List.length_zipWith,
      List.length_drop, List.length_append, List.length_map]
    omega

/-- Witness for C9: the invariant holds concretely from the initial state
on a two-tick script. -/
theorem readings_timestamps_length_eq_witness :
    initState.readings.length = initState.timestamps.length ∧
    ((runLoop 60 "Site" [⟨0, 1/50, 1, TickOutcome.ok⟩,
        ⟨5, 3/100, 2, TickOutcome.ok⟩] initState).1.readings.length =
      (runLoop 60 "Site" [⟨0, 1/50, 1, TickOutcome.ok⟩,
        ⟨5, 3/100, 2, TickOutcome.ok⟩] initState).1.timestamps.length ∧
    (export_to_csv (runLoop 60 "Site" [⟨0, 1/50, 1, TickOutcome.ok⟩,
        ⟨5, 3/100, 2, TickOutcome.ok⟩] initState).1 "Site"
        ⟨2025, 1, 2, 3, 4, 5⟩).rows.length =
      (runLoop 60 "Site" [⟨0, 1/50, 1, TickOutcome.ok⟩,
        ⟨5, 3/100, 2, TickOutcome.ok⟩] initState).1.readings.length - 1) :=
  ⟨rfl,
    (readings_timestamps_length_eq 60 "Site" _ initState ⟨2025, 1, 2, 3, 4, 5⟩
      rfl).2⟩

/-- C6: the reading buffer is append-only: any run of the sampling loop
extends `readings` and `timestamps` with a prefix of the scripted tick
values, in arrival order, leaving existing entries untouched; the implicit
`sequence_index` (buffer position) is strictly increasing, and under a
monotone-clock hypothesis on the scripted wall timestamps the timestamp
list stays non-decreasing. -/
theorem buffer_append_only_monotone (endTime : ℚ) (location : String)
    (script : List Tick) (st : MonState)
    (hmono : List.Chain' (· ≤ ·)
      (st.timestamps ++ script.map Tick.wallTime)) :
    ∃ n,
      (runLoop endTime location script st).1.readings =
        st.readings ++ (script.map Tick.concentration).take n ∧
      (runLoop endTime location script st).1.timestamps =
        st.timestamps ++ (script.map Tick.wallTime).take n ∧
      List.Chain' (· < ·)
        (seqIndices (runLoop endTime location script st).1) ∧
      List.Chain' (· ≤ ·)
        (runLoop endTime location script st).1.timestamps := by
  obtain ⟨n, hn⟩ := executedTicks_eq_take endTime script
  have hsub : List.Sublist
      (st.timestamps ++ (script.map Tick.wallTime).take n)
      (st.timestamps ++ script.map Tick.wallTime) :=
    (List.take_sublist _ _).append_left _
  refine ⟨n, ?_, ?_, ?_, ?_⟩ <;> rw [runLoop_eq]
  · simp [applyTicks, hn, List.map_take]
  · simp [applyTicks, hn, List.map_take]
  · exact (List.pairwise_lt_range _).chain'
  · simp only [applyTicks, hn, List.map_take]
    exact hmono.sublist hsub

/-- Witness for C6: a concrete two-tick run from the initial state with
non-decreasing scripted timestamps. -/
theorem buffer_append_only_monotone_witness :
    List.Chain' (· ≤ ·) (initState.timestamps ++
      ([⟨0, 1/50, 1, TickOutcome.ok⟩,
        ⟨5, 3/100, 2, TickOutcome.ok⟩] : List Tick).map Tick.wallTime) ∧
    (∃ n,
      (runLoop 60 "Site" [⟨0, 1/50, 1, TickOutcome.ok⟩,
          ⟨5, 3/100, 2, TickOutcome.ok⟩] initState).1.readings =
        initState.readings ++
          (([⟨0, 1/50, 1, TickOutcome.ok⟩,
             ⟨5, 3/100, 2, TickOutcome.ok⟩] : List Tick).map
            Tick.concentration).take n ∧
      (runLoop 60 "Site" [⟨0, 1/50, 1, TickOutcome.ok⟩,
          ⟨5, 3/100, 2, TickOutcome.ok⟩] initState).1.timestamps =
        initState.timestamps ++
          (([⟨0, 1/50, 1, TickOutcome.ok⟩,
             ⟨5, 3/100, 2, TickOutcome.ok⟩] : List Tick).map
            Tick.wallTime).take n ∧
      List.Chain' (· < ·)
        (seqIndices (runLoop 60 "Site" [⟨0, 1/50, 1, TickOutcome.ok⟩,
          ⟨5, 3/100, 2, TickOutcome.ok⟩] initState).1) ∧
      List.Chain' (· ≤ ·)
        (runLoop 60 "Site" [⟨0, 1/50, 1, TickOutcome.ok⟩,
          ⟨5, 3/100, 2, TickOutcome.ok⟩] initState).1.timestamps) := by
  have hm : List.Chain' (· ≤ ·) (initState.timestamps ++
      ([⟨0, 1/50, 1, TickOutcome.ok⟩,
        ⟨5, 3/100, 2, TickOutcome.ok⟩] : List Tick).map Tick.wallTime) := by
    norm_num [initState, List.chain'_cons]
  exact ⟨hm, buffer_append_only_monotone 60 "Site" _ initState hm⟩

/-- C3 counterexample: the source has no rejection branch for a negative
sample.  On a tick sampling `-0.01` the reading IS classified (to
`"Low"`), IS appended to the buffer, and IS written to the store — the
claim says the tick is rejected before any of that happens. -/
theorem negative_sample_processed_cex :
    (real_time_monitoring "Site" 1 0 [⟨0, -(1/100), 2, TickOutcome.ok⟩]
        ⟨2025, 1, 2, 3, 4, 5⟩).final.readings = [0, -(1/100)] ∧
    (real_time_monitoring "Site" 1 0 [⟨0, -(1/100), 2, TickOutcome.ok⟩]
        ⟨2025, 1, 2, 3, 4, 5⟩).final.dbRows =
      [⟨2, "Site", -(1/100), "Low"⟩] ∧
    (real_time_monitoring "Site" 1 0 [⟨0, -(1/100), 2, TickOutcome.ok⟩]
        ⟨2025, 1, 2, 3, 4, 5⟩).exitPath = ExitPath.timeout := by
  norm_num [real_time_monitoring, runLoop, tickBody, initState,
    calculate_risk_level]

/-- C3 (amended): a tick whose sampled concentration is negative is not
rejected: the sample is classified (to `"Low"`), appended to the reading
buffer, and written to the persistence store like any ordinary reading,
and the loop continues with the rest of the script — a negative sample
never terminates the session.  (The simulated sensor draws from
`[0, 0.2)`, so such a tick never occurs in the shipped code.) -/
theorem negative_sample_not_rejected (c : ℚ) (hc : c < 0) (st : MonState)
    (location : String) (rest : List Tick) (endTime nowC wallT : ℚ)
    (hclock : nowC < endTime) :
    calculate_risk_level c = "Low" ∧
    runLoop endTime location (⟨nowC, c, wallT, TickOutcome.ok⟩ :: rest) st =
      runLoop endTime location rest
        { readings := st.readings ++ [c]
          timestamps := st.timestamps ++ [wallT]
          dbRows := st.dbRows ++ [⟨wallT, location, c, "Low"⟩] } := by
  have hlow : calculate_risk_level c = "Low" :=
    (risk_low_iff c).mpr (lt_trans hc (by norm_num))
  refine ⟨hlow, ?_⟩
  simp only [runLoop, if_pos hclock]
  congr 1
  simp [tickBody, hlow]

/-- Witness for C3 (amended) at the concrete sample `-0.01`. -/
theorem negative_sample_not_rejected_witness :
    ((-(1/100) : ℚ) < 0 ∧ (0 : ℚ) < 60) ∧
    (calculate_risk_level (-(1/100)) = "Low" ∧
     runLoop 60 "Site" [⟨0, -(1/100), 2, TickOutcome.ok⟩] initState =
       runLoop 60 "Site" []
         { readings := initState.readings ++ [-(1/100)]
           timestamps := initState.timestamps ++ [2]
           dbRows := initState.dbRows ++ [⟨2, "Site", -(1/100), "Low"⟩] }) :=
  ⟨⟨by norm_num, by norm_num⟩,
    negative_sample_not_rejected (-(1/100)) (by norm_num) initState "Site" []
      60 0 2 (by norm_num)⟩

theorem executedTicks_append_fail (endTime : ℚ) (pre : List Tick) (tf : Tick)
    (rest : List Tick)
    (hpre : ∀ t ∈ pre, t.outcome = TickOutcome.ok ∧ t.nowClock < endTime)
    (htf : tf.outcome = TickOutcome.writeFail)
    (htfc : tf.nowClock < endTime) :
    executedTicks endTime (pre ++ tf :: rest) = pre ++ [tf] ∧
    exitOf endTime (pre ++ tf :: rest) = ExitPath.fault := by
  induction pre with
  | nil => simp [executedTicks, exitOf, htfc, htf]
  | cons p ps ih =>
    have hp := hpre p (by simp)
    have ihx := ih (fun t ht => hpre t (by simp [ht]))
    simp [executedTicks, exitOf, hp.1, hp.2, ihx.1, ihx.2]

/-- C4 counterexample: a persistence-store write failure on the second
tick DOES abort the sampling loop — the third scripted tick never runs
(only two non-sentinel readings exist at the end) and the exit path is the
fault path, while the claim says the loop continues to the next tick. -/
theorem write_failure_stops_loop_cex :
    (real_time_monitoring "Site" 1 0
        [⟨0, 1/50, 1, TickOutcome.ok⟩, ⟨5, 3/100, 2, TickOutcome.writeFail⟩,
         ⟨10, 1/25, 3, TickOutcome.ok⟩]
        ⟨2025, 1, 2, 3, 4, 5⟩).exitPath = ExitPath.fault ∧
    (real_time_monitoring "Site" 1 0
        [⟨0, 1/50, 1, TickOutcome.ok⟩, ⟨5, 3/100, 2, TickOutcome.writeFail⟩,
         ⟨10, 1/25, 3, TickOutcome.ok⟩]
        ⟨2025, 1, 2, 3, 4, 5⟩).final.readings = [0, 1/50, 3/100] ∧
    (real_time_monitoring "Site" 1 0
        [⟨0, 1/50, 1, TickOutcome.ok⟩, ⟨5, 3/100, 2, TickOutcome.writeFail⟩,
         ⟨10, 1/25, 3, TickOutcome.ok⟩]
        ⟨2025, 1, 2, 3, 4, 5⟩).final.dbRows =
      [⟨1, "Site", 1/50, "Medium"⟩] ∧
    (real_time_monitoring "Site" 1 0
        [⟨0, 1/50, 1, TickOutcome.ok⟩, ⟨5, 3/100, 2, TickOutcome.writeFail⟩,
         ⟨10, 1/25, 3, TickOutcome.ok⟩]
        ⟨2025, 1, 2, 3, 4, 5⟩).exports.map
      (fun f => f.rows.map DBRow.concentration) = [[1/50, 3/100]] := by
  norm_num [real_time_monitoring, runLoop, tickBody, initState,
    calculate_risk_level, export_to_csv]

/-- C4 (amended): when a persistence write fails on some tick, the raised
exception ends the sampling loop (no later tick runs) and is caught at the
session boundary as the fault exit path; the session still shuts down: the
failing tick's reading remains in the in-memory buffer and still appears
in the (single) final export, while its row is absent from the store. -/
theorem write_failure_ends_loop_but_exports (location : String)
    (durationMinutes : Int) (startClock : ℚ) (pre : List Tick) (tf : Tick)
    (rest : List Tick) (exportNow : DateTime)
    (hpre : ∀ t ∈ pre, t.outcome = TickOutcome.ok ∧
      t.nowClock < startClock + (durationMinutes : ℚ) * 60)
    (htf : tf.outcome = TickOutcome.writeFail)
    (htfc : tf.nowClock < startClock + (durationMinutes : ℚ) * 60) :
    (real_time_monitoring location durationMinutes startClock
        (pre ++ tf :: rest) exportNow).exitPath = ExitPath.fault ∧
    (real_time_monitoring location durationMinutes startClock
        (pre ++ tf :: rest) exportNow).final.readings =
      0 :: (pre.map Tick.concentration ++ [tf.concentration]) ∧
    (real_time_monitoring location durationMinutes startClock
        (pre ++ tf :: rest) exportNow).final.dbRows =
      pre.map (rowOf location) ∧
    (real_time_monitoring location durationMinutes startClock
        (pre ++ tf :: rest) exportNow).exports.map
      (fun f => f.rows.map DBRow.concentration) =
      [pre.map Tick.concentration ++ [tf.concentration]] := by
  have hexec := executedTicks_append_fail
    (startClock + (durationMinutes : ℚ) * 60) pre tf rest hpre htf htfc
  have hw : ∀ t ∈ pre, writesRow t = true := by
    intro t ht
    simp [writesRow, (hpre t ht).1]
  have hstate : (runLoop (startClock + (durationMinutes : ℚ) * 60) location
      (pre ++ tf :: rest) initState).1 =
      applyTicks initState location (pre ++ [tf]) := by
    rw [runLoop_eq, hexec.1]
  have hfilter : (pre ++ [tf]).filter writesRow = pre := by
    rw [List.filter_append, List.filter_eq_self.mpr hw]
    simp [writesRow, htf]
  have hts : (applyTicks initState location (pre ++ [tf])).timestamps.drop 1 =
      pre.map Tick.wallTime ++ [tf.wallTime] := by
    simp [applyTicks, initState]
  have hcs : (applyTicks initState location (pre ++ [tf])).readings.drop 1 =
      pre.map Tick.concentration ++ [tf.concentration] := by
    simp [applyTicks, initState]
  refine ⟨?_, ?_, ?_, ?_⟩
  · simp only [real_time_monitoring, runLoop_eq]
    exact hexec.2
  · simp only [real_time_monitoring, hstate]
    simp [applyTicks, initState]
  · simp only [real_time_monitoring, hstate]
    simp [applyTicks, initState, hfilter]
  · simp only [real_time_monitoring, hstate]
    rw [if_pos (by simp [applyTicks, initState])]
    simp only [List.map_cons, List.map_nil, export_to_csv]
    rw [hts, hcs, zipRows_map_concentration location _ _ (by simp)]

/-- Witness for C4 (amended): one successful tick, then a failing write,
then a scripted tick that never runs. -/
theorem write_failure_ends_loop_but_exports_witness :
    (real_time_monitoring "Site" 1 0
        ([⟨0, 1/50, 1, TickOutcome.ok⟩] ++
          ⟨5, 3/100, 2, TickOutcome.writeFail⟩ ::
            [⟨10, 1/25, 3, TickOutcome.ok⟩])
        ⟨2025, 1, 2, 3, 4, 5⟩).exitPath = ExitPath.fault ∧
    (real_time_monitoring "Site" 1 0
        ([⟨0, 1/50, 1, TickOutcome.ok⟩] ++
          ⟨5, 3/100, 2, TickOutcome.writeFail⟩ ::
            [⟨10, 1/25, 3, TickOutcome.ok⟩])
        ⟨2025, 1, 2, 3, 4, 5⟩).final.readings =
      0 :: (([⟨0, 1/50, 1, TickOutcome.ok⟩] : List Tick).map
          Tick.concentration ++ [(⟨5, 3/100, 2, TickOutcome.writeFail⟩ :
            Tick).concentration]) ∧
    (real_time_monitoring "Site" 1 0
        ([⟨0, 1/50, 1, TickOutcome.ok⟩] ++
          ⟨5, 3/100, 2, TickOutcome.writeFail⟩ ::
            [⟨10, 1/25, 3, TickOutcome.ok⟩])
        ⟨2025, 1, 2, 3, 4, 5⟩).final.dbRows =
      ([⟨0, 1/50, 1, TickOutcome.ok⟩] : List Tick).map (rowOf "Site") ∧
    (real_time_monitoring "Site" 1 0
        ([⟨0, 1/50, 1, TickOutcome.ok⟩] ++
          ⟨5, 3/100, 2, TickOutcome.writeFail⟩ ::
            [⟨10, 1/25, 3, TickOutcome.ok⟩])
        ⟨2025, 1, 2, 3, 4, 5⟩).exports.map
      (fun f => f.rows.map DBRow.concentration) =
      [([⟨0, 1/50, 1, TickOutcome.ok⟩] : List Tick).map
          Tick.concentration ++ [(⟨5, 3/100, 2, TickOutcome.writeFail⟩ :
            Tick).concentration]] :=
  write_failure_ends_loop_but_exports "Site" 1 0
    [⟨0, 1/50, 1, TickOutcome.ok⟩] ⟨5, 3/100, 2, TickOutcome.writeFail⟩
    [⟨10, 1/25, 3, TickOutcome.ok⟩] ⟨2025, 1, 2, 3, 4, 5⟩
    (by
      intro t ht
      rw [List.mem_singleton] at ht
      subst ht
      exact ⟨rfl, by norm_num⟩)
    rfl (by norm_num)

theorem executedTicks_nil_of_late (endTime : ℚ) (script : List Tick)
    (h : ∀ t ∈ script, ¬ t.nowClock < endTime) :
    executedTicks endTime script = [] ∧
    exitOf endTime script = ExitPath.timeout := by
  cases script with
  | nil => exact ⟨rfl, rfl⟩
  | cons t rest =>
    have ht := h t (by simp)
    simp [executedTicks, exitOf, ht]

/-- C7 counterexample: the text `"-5"` parses as the integer `-5`, is
neither rejected nor replaced by the documented default 60, and the
session runs to completion (its close happens) with planned end
`0 + (-5)·60 = -300`, i.e. a negative planned duration. -/
theorem nonpositive_duration_accepted_cex :
    parseDurationInput "-5" = -5 ∧
    (mainRun "Site" "-5" 0 [] ⟨2025, 1, 2, 3, 4, 5⟩).plannedEnd = -300 ∧
    (mainRun "Site" "-5" 0 [] ⟨2025, 1, 2, 3, 4, 5⟩).closeCount = 1 := by
  have h5 : parseDurationInput "-5" = -5 := by decide
  refine ⟨h5, ?_, rfl⟩
  simp only [mainRun, real_time_monitoring, h5]
  norm_num

/-- C7 (amended): a non-parsing duration line (empty input included)
defaults to 60 minutes, but a non-positive integer literal is accepted
as-is: the session then runs with a non-positive planned duration and its
sampling loop performs zero ticks (for any clock at or after the start),
exporting nothing and still closing the store. -/
theorem duration_default_and_nonpositive
    (badText durationInput location : String) (startClock : ℚ)
    (script : List Tick) (exportNow : DateTime)
    (hbad : badText ≠ "" ∧ pyInt badText = none)
    (hd : parseDurationInput durationInput ≤ 0)
    (hclocks : ∀ t ∈ script, startClock ≤ t.nowClock) :
    parseDurationInput badText = 60 ∧
    (mainRun location durationInput startClock script exportNow).final =
      initState ∧
    (mainRun location durationInput startClock script exportNow).exitPath =
      ExitPath.timeout ∧
    (mainRun location durationInput startClock script exportNow).exports =
      [] ∧
    (mainRun location durationInput startClock script exportNow).closeCount =
      1 := by
  have hcast : ((parseDurationInput durationInput : Int) : ℚ) ≤ 0 := by
    exact_mod_cast hd
  have hend : startClock + (parseDurationInput durationInput : ℚ) * 60 ≤
      startClock := by linarith
  have hlate : ∀ t ∈ script,
      ¬ t.nowClock < startClock +
        (parseDurationInput durationInput : ℚ) * 60 :=
    fun t ht => not_lt.mpr (le_trans hend (hclocks t ht))
  have hexec := executedTicks_nil_of_late _ script hlate
  refine ⟨?_, ?_, ?_, ?_, rfl⟩
  · simp [parseDurationInput, hbad.1, hbad.2]
  · simp only [mainRun, real_time_monitoring, runLoop_eq, hexec.1,
      applyTicks_nil]
  · simp only [mainRun, real_time_monitoring, runLoop_eq, hexec.2]
  · simp only [mainRun, real_time_monitoring, runLoop_eq, hexec.1,
      applyTicks_nil]
    rw [if_neg (by simp [initState])]

/-- Witness for C7 (amended): `"abc"` fails to parse, `"-5"` parses to a
non-positive duration, and the resulting session performs zero ticks. -/
theorem duration_default_and_nonpositive_witness :
    (("abc" : String) ≠ "" ∧ pyInt "abc" = none) ∧
    parseDurationInput "-5" ≤ 0 ∧
    (parseDurationInput "abc" = 60 ∧
     (mainRun "Site" "-5" 0 [⟨3, 1/50, 1, TickOutcome.ok⟩]
        ⟨2025, 1, 2, 3, 4, 5⟩).final = initState ∧
     (mainRun "Site" "-5" 0 [⟨3, 1/50, 1, TickOutcome.ok⟩]
        ⟨2025, 1, 2, 3, 4, 5⟩).exitPath = ExitPath.timeout ∧
     (mainRun "Site" "-5" 0 [⟨3, 1/50, 1, TickOutcome.ok⟩]
        ⟨2025, 1, 2, 3, 4, 5⟩).exports = [] ∧
     (mainRun "Site" "-5" 0 [⟨3, 1/50, 1, TickOutcome.ok⟩]
        ⟨2025, 1, 2, 3, 4, 5⟩).closeCount = 1) :=
  ⟨⟨by decide, by decide⟩, by decide,
    duration_default_and_nonpositive "abc" "-5" "Site" 0
      [⟨3, 1/50, 1, TickOutcome.ok⟩] ⟨2025, 1, 2, 3, 4, 5⟩
      ⟨by decide, by decide⟩ (by decide)
      (by
        intro t ht
        rw [List.mem_singleton] at ht
        subst ht
        norm_num)⟩

theorem lexConsIff {α : Type} {r : α → α → Prop} {a b : α}
    {l₁ l₂ : List α} :
    List.Lex r (a :: l₁) (b :: l₂) ↔ r a b ∨ (a = b ∧ List.Lex r l₁ l₂) := by
  constructor
  · intro h
    cases h with
    | cons h => exact Or.inr ⟨rfl, h⟩
    | rel h => exact Or.inl h
  · rintro (h | ⟨rfl, h⟩)
    · exact List.Lex.rel h
    · exact List.Lex.cons h

theorem lexAppendIff {α : Type} (r : α → α → Prop) (l₁ l₂ r₁ r₂ : List α)
    (h : l₁.length = l₂.length) :
    List.Lex r (l₁ ++ r₁) (l₂ ++ r₂) ↔
      List.Lex r l₁ l₂ ∨ (l₁ = l₂ ∧ List.Lex r r₁ r₂) := by
  induction l₁ generalizing l₂ with
  | nil =>
    cases l₂ with
    | nil => simp [List.Lex.not_nil_right]
    | cons b l₂ => simp at h
  | cons a l₁ ih =>
    cases l₂ with
    | nil => simp at h
    | cons b l₂ =>
      simp only [List.cons_append]
      rw [lexConsIff, lexConsIff, ih l₂ (by simpa using h)]
      simp only [List.cons.injEq]
      tauto

theorem digitChar_lt_iff {a b : Nat} (ha : a < 10) (hb : b < 10) :
    Nat.digitChar a < Nat.digitChar b ↔ a < b := by
  interval_cases a <;> interval_cases b <;> decide

theorem digitChar_eq_iff {a b : Nat} (ha : a < 10) (hb : b < 10) :
    Nat.digitChar a = Nat.digitChar b ↔ a = b := by
  interval_cases a <;> interval_cases b <;> decide

theorem lexPad2 {a b : Nat} (ha : a < 100) (hb : b < 100) :
    List.Lex (· < ·) (pad2 a).data (pad2 b).data ↔ a < b := by
  have m1 : a / 10 % 10 < 10 := Nat.mod_lt _ (by norm_num)
  have m2 : a % 10 < 10 := Nat.mod_lt _ (by norm_num)
  have m3 : b / 10 % 10 < 10 := Nat.mod_lt _ (by norm_num)
  have m4 : b % 10 < 10 := Nat.mod_lt _ (by norm_num)
  have hnl : ¬ List.Lex (· < ·) ([] : List Char) [] :=
    List.Lex.not_nil_right _ _
  show List.Lex (· < ·)
      [Nat.digitChar (a / 10 % 10), Nat.digitChar (a % 10)]
      [Nat.digitChar (b / 10 % 10), Nat.digitChar (b % 10)] ↔ a < b
  rw [lexConsIff, lexConsIff, digitChar_lt_iff m1 m3, digitChar_eq_iff m1 m3,
    digitChar_lt_iff m2 m4, digitChar_eq_iff m2 m4]
  simp only [hnl, and_false, or_false]
  omega

theorem pad2_data_eq_iff {a b : Nat} (ha : a < 100) (hb : b < 100) :
    (pad2 a).data = (pad2 b).data ↔ a = b := by
  have m1 : a / 10 % 10 < 10 := Nat.mod_lt _ (by norm_num)
  have m2 : a % 10 < 10 := Nat.mod_lt _ (by norm_num)
  have m3 : b / 10 % 10 < 10 := Nat.mod_lt _ (by norm_num)
  have m4 : b % 10 < 10 := Nat.mod_lt _ (by norm_num)
  show [Nat.digitChar (a / 10 % 10), Nat.digitChar (a % 10)] =
      [Nat.digitChar (b / 10 % 10), Nat.digitChar (b % 10)] ↔ a = b
  simp only [List.cons.injEq, and_true]
  rw [digitChar_eq_iff m1 m3, digitChar_eq_iff m2 m4]
  omega

theorem pad4_data_eq (a : Nat) :
    (pad4 a).data = (pad2 (a / 100)).data ++ (pad2 (a % 100)).data := by
  have e1 : a / 100 / 10 = a / 1000 := by
    rw [Nat.div_div_eq_div_mul]
  have e2 : a % 100 / 10 = a / 10 % 10 :=
    Nat.mod_mul_right_div_self a 10 10
  have e3 : a % 100 % 10 = a % 10 :=
    Nat.mod_mod_of_dvd a (by norm_num)
  show [Nat.digitChar (a / 1000 % 10), Nat.digitChar (a / 100 % 10),
        Nat.digitChar (a / 10 % 10), Nat.digitChar (a % 10)] =
      [Nat.digitChar (a / 100 / 10 % 10), Nat.digitChar (a / 100 % 10)] ++
        [Nat.digitChar (a % 100 / 10 % 10), Nat.digitChar (a % 100 % 10)]
  rw [e1, e2, e3]
  have e4 : a / 10 % 10 % 10 = a / 10 % 10 :=
    Nat.mod_mod_of_dvd _ (by norm_num)
  rw [e4]
  rfl

theorem lexPad4 {a b : Nat} (ha : a < 10000) (hb : b < 10000) :
    List.Lex (· < ·) (pad4 a).data (pad4 b).data ↔ a < b := by
  have da : a / 100 < 100 := by omega
  have db : b / 100 < 100 := by omega
  have ma : a % 100 < 100 := Nat.mod_lt _ (by norm_num)
  have mb : b % 100 < 100 := Nat.mod_lt _ (by norm_num)
  rw [pad4_data_eq, pad4_data_eq, lexAppendIff _ _ _ _ _ (by rfl),
    lexPad2 da db, pad2_data_eq_iff da db, lexPad2 ma mb]
  omega

theorem pad4_data_eq_iff {a b : Nat} (ha : a < 10000) (hb : b < 10000) :
    (pad4 a).data = (pad4 b).data ↔ a = b := by
  have da : a / 100 < 100 := by omega
  have db : b / 100 < 100 := by omega
  have ma : a % 100 < 100 := Nat.mod_lt _ (by norm_num)
  have mb : b % 100 < 100 := Nat.mod_lt _ (by norm_num)
  rw [pad4_data_eq, pad4_data_eq]
  constructor
  · intro h
    obtain ⟨h1, h2⟩ := List.append_inj h (by rfl)
    have q1 := (pad2_data_eq_iff da db).mp h1
    have q2 := (pad2_data_eq_iff ma mb).mp h2
    omega
  · rintro rfl
    rfl

theorem strftime_data (d : DateTime) :
    (strftimeYmdHMS d).data =
      (pad4 d.year).data ++ ((pad2 d.month).data ++ ((pad2 d.day).data ++
        ('_' :: ((pad2 d.hour).data ++ ((pad2 d.minute).data ++
          (pad2 d.second).data))))) := by
  have hu : ("_" : String).data = ['_'] := rfl
  simp [strftimeYmdHMS, String.data_append, hu, List.append_assoc]

/-- The `%Y%m%d_%H%M%S` stamp is sortable: for calendar-valid instants,
lexicographic order of the formatted strings coincides with chronological
order of the instants. -/
theorem strftime_lt_iff_key (d1 d2 : DateTime) (h1 : validDT d1)
    (h2 : validDT d2) :
    (strftimeYmdHMS d1 < strftimeYmdHMS d2 ↔ dtKey d1 < dtKey d2) := by
  obtain ⟨hy1, hmo1, hdd1, hh1, hmi1, hs1⟩ := h1
  obtain ⟨hy2, hmo2, hdd2, hh2, hmi2, hs2⟩ := h2
  rw [String.lt_iff_toList_lt]
  show List.Lex (· < ·) (strftimeYmdHMS d1).data (strftimeYmdHMS d2).data ↔
    dtKey d1 < dtKey d2
  rw [strftime_data, strftime_data,
    lexAppendIff (· < ·) ((pad4 d1.year).data) ((pad4 d2.year).data) _ _ rfl,
    lexAppendIff (· < ·) ((pad2 d1.month).data) ((pad2 d2.month).data) _ _
      rfl,
    lexAppendIff (· < ·) ((pad2 d1.day).data) ((pad2 d2.day).data) _ _ rfl,
    lexConsIff,
    lexAppendIff (· < ·) ((pad2 d1.hour).data) ((pad2 d2.hour).data) _ _ rfl,
    lexAppendIff (· < ·) ((pad2 d1.minute).data) ((pad2 d2.minute).data) _ _
      rfl,
    lexPad4 hy1 hy2, pad4_data_eq_iff hy1 hy2,
    lexPad2 hmo1 hmo2, pad2_data_eq_iff hmo1 hmo2,
    lexPad2 hdd1 hdd2, pad2_data_eq_iff hdd1 hdd2,
    lexPad2 hh1 hh2, pad2_data_eq_iff hh1 hh2,
    lexPad2 hmi1 hmi2, pad2_data_eq_iff hmi1 hmi2,
    lexPad2 hs1 hs2]
  have hu : ¬ ('_' < '_') := by decide
  simp only [hu, false_or, and_true, true_and, eq_self_iff_true, dtKey]
  omega

/-- C5: for any buffer state at session end (readings and timestamps of
equal length, as maintained by the loop), the export has the header
`Timestamp, Location, Concentration, Risk_Level`, exactly one row per
non-sentinel reading in buffer (arrival) order, and a filename embedding
the `%Y%m%d_%H%M%S` stamp, whose lexicographic order is chronological
order (a sortable timestamp); the sentinel seed pair is dropped from the
export (only positions after index 0 appear), and the persisted rows of
any session consist exactly of the executed ticks' rows — the sentinel is
never written to the store. -/
theorem export_rows_header_filename (st : MonState) (location : String)
    (now : DateTime) (d1 d2 : DateTime) (durationMinutes : Int)
    (startClock : ℚ) (script : List Tick) (exportNow : DateTime)
    (hlen : st.readings.length = st.timestamps.length)
    (h1 : validDT d1) (h2 : validDT d2) :
    (export_to_csv st location now).header =
      ["Timestamp", "Location", "Concentration", "Risk_Level"] ∧
    (export_to_csv st location now).rows.length =
      st.readings.length - 1 ∧
    (export_to_csv st location now).rows.map DBRow.concentration =
      st.readings.drop 1 ∧
    (export_to_csv st location now).rows.map DBRow.timestamp =
      st.timestamps.drop 1 ∧
    (export_to_csv st location now).filename =
      "asbestos_readings_" ++ strftimeYmdHMS now ++ ".csv" ∧
    (strftimeYmdHMS d1 < strftimeYmdHMS d2 ↔ dtKey d1 < dtKey d2) ∧
    (real_time_monitoring location durationMinutes startClock script
        exportNow).final.dbRows =
      ((executedTicks (startClock + (durationMinutes : ℚ) * 60)
          script).filter writesRow).map (rowOf location) := by
  refine ⟨rfl, ?_, ?_, ?_, rfl, strftime_lt_iff_key d1 d2 h1 h2, ?_⟩
  · simp only [export_to_csv, List.length_zipWith, List.length_drop]
    omega
  · exact zipRows_map_concentration location _ _ (by simp [hlen])
  · exact zipRows_map_timestamp location _ _ (by simp [hlen])
  · simp only [real_time_monitoring, runLoop_eq]
    simp [applyTicks, initState]

/-- Witness for C5 on a concrete buffer and concrete calendar instants
(a year boundary, where sortability is least obvious). -/
theorem export_rows_header_filename_witness :
    ((⟨[0, 1/50], [0, 1], []⟩ : MonState).readings.length =
      (⟨[0, 1/50], [0, 1], []⟩ : MonState).timestamps.length ∧
     validDT ⟨2024, 12, 31, 23, 59, 59⟩ ∧ validDT ⟨2025, 1, 1, 0, 0, 0⟩) ∧
    ((export_to_csv ⟨[0, 1/50], [0, 1], []⟩ "Site"
        ⟨2025, 1, 2, 3, 4, 5⟩).header =
      ["Timestamp", "Location", "Concentration", "Risk_Level"] ∧
     (export_to_csv ⟨[0, 1/50], [0, 1], []⟩ "Site"
        ⟨2025, 1, 2, 3, 4, 5⟩).rows.length =
      (⟨[0, 1/50], [0, 1], []⟩ : MonState).readings.length - 1 ∧
     (export_to_csv ⟨[0, 1/50], [0, 1], []⟩ "Site"
        ⟨2025, 1, 2, 3, 4, 5⟩).rows.map DBRow.concentration =
      (⟨[0, 1/50], [0, 1], []⟩ : MonState).readings.drop 1 ∧
     (export_to_csv ⟨[0, 1/50], [0, 1], []⟩ "Site"
        ⟨2025, 1, 2, 3, 4, 5⟩).rows.map DBRow.timestamp =
      (⟨[0, 1/50], [0, 1], []⟩ : MonState).timestamps.drop 1 ∧
     (export_to_csv ⟨[0, 1/50], [0, 1], []⟩ "Site"
        ⟨2025, 1, 2, 3, 4, 5⟩).filename =
      "asbestos_readings_" ++ strftimeYmdHMS ⟨2025, 1, 2, 3, 4, 5⟩ ++
        ".csv" ∧
     (strftimeYmdHMS ⟨2024, 12, 31, 23, 59, 59⟩ <
        strftimeYmdHMS ⟨2025, 1, 1, 0, 0, 0⟩ ↔
      dtKey ⟨2024, 12, 31, 23, 59, 59⟩ < dtKey ⟨2025, 1, 1, 0, 0, 0⟩) ∧
     (real_time_monitoring "Site" 1 0 [⟨0, 1/50, 1, TickOutcome.ok⟩]
        ⟨2025, 1, 2, 3, 4, 5⟩).final.dbRows =
      ((executedTicks (0 + (1 : ℚ) * 60)
          [⟨0, 1/50, 1, TickOutcome.ok⟩]).filter writesRow).map
        (rowOf "Site")) :=
  ⟨⟨rfl, by decide, by decide⟩,
    export_rows_header_filename ⟨[0, 1/50], [0, 1], []⟩ "Site"
      ⟨2025, 1, 2, 3, 4, 5⟩ ⟨2024, 12, 31, 23, 59, 59⟩ ⟨2025, 1, 1, 0, 0, 0⟩
      1 0 [⟨0, 1/50, 1, TickOutcome.ok⟩] ⟨2025, 1, 2, 3, 4, 5⟩
      rfl (by decide) (by decide)⟩
